import Mathlib

/-!
Verification of the staged bootstrap orchestrator in
`Utilities/build-script-helper.py` (swift-tools-support-core).

The script is shallowly embedded: Python functions become Lean functions
over an explicit state monad `PyM` that tracks the lines printed to
stdout, the external command vectors spawned, and the parent process
environment.  Host facts (platform, filesystem probes, results of
external commands, path normalisation) are oracles collected in a `Host`
record.  Python exceptions are modelled by the `PyErr` error type; an
exception leaves the already-performed side effects in place, exactly as
in the real process.

The argparse namespace is modelled by the structure `Ns`.  Attributes
that some code path reads but that no parser in `main` ever registers
(for example `llbuild_build_dir`: `add_build_args`, lines 95-105, only
registers `--build-dir`, `-v`, `--verbose`, `--swiftc` and `--release`) are
represented as `Option` fields whose getter `nsAttr` raises
AttributeError when the field is `none`, mirroring Python attribute
lookup on a missing attribute.
-/

namespace BSH

/-- An external command vector, as passed to `subprocess`. -/
abbrev Cmd := List String

/-- Python exceptions that the script can raise. -/
inductive PyErr where
  /-- Source `SystemExit(code)`, raised by `error` (code 1) or argparse (code 2). -/
  | systemExit : Nat → PyErr
  /-- Attribute lookup on an argparse namespace attribute that no parser defined. -/
  | attributeError : String → PyErr
  /-- Reference to a local variable that was never assigned. -/
  | nameError : String → PyErr
  /-- Source `subprocess.CalledProcessError` from `check_call` / `check_output`. -/
  | calledProcessError : Cmd → PyErr
  /-- The generic `raise Exception()` at line 380. -/
  | exception : PyErr
deriving DecidableEq

/-- Observable process state: stdout lines, spawned command vectors in order,
and the parent process environment (`os.environ`), which the script never
writes. -/
structure PyState where
  out : List String
  execd : List Cmd
  env : List (String × String)
deriving DecidableEq

/-- The effect monad of the embedding: state plus Python exceptions.  Side
effects performed before an exception is raised are kept, as in a real
process. -/
def PyM (α : Type) : Type := PyState → Except PyErr α × PyState

instance : Monad PyM where
  pure a := fun s => (Except.ok a, s)
  bind m f := fun s =>
    match m s with
    | (Except.ok a, s') => f a s'
    | (Except.error e, s') => (Except.error e, s')

/-- Raise a Python exception. -/
def throwE {α : Type} (e : PyErr) : PyM α := fun s => (Except.error e, s)

/-- Source `try:`/`except:`: run `m`; on any exception run the handler from the
state reached when the exception was raised (a bare `except:` catches
every exception). -/
def tryE {α : Type} (m : PyM α) (h : PyErr → PyM α) : PyM α := fun s =>
  match m s with
  | (Except.ok a, s') => (Except.ok a, s')
  | (Except.error e, s') => h e s'

/-- Source `print(line)` to stdout. -/
def pyPrint (line : String) : PyM Unit := fun s =>
  (Except.ok (), { s with out := s.out ++ [line] })

/-- Attribute lookup on the argparse namespace: `none` means the attribute
was never defined, so the access raises AttributeError, as in Python. -/
def nsAttr {α : Type} (v : Option α) (name : String) : PyM α :=
  match v with
  | some x => fun s => (Except.ok x, s)
  | none => throwE (PyErr.attributeError name)

/-- Host facts consulted by the script: oracles for the platform, external
command results, filesystem probes and path normalisation. -/
structure Host where
  /-- Source `platform.system() == Darwin`. -/
  isDarwin : Bool
  /-- Exit status and captured stdout of an external command vector. -/
  run : Cmd → Int × String
  /-- Source `os.path.isfile`. -/
  isfile : String → Bool
  /-- Source `os.path.exists`. -/
  pathExists : String → Bool
  /-- Source `os.path.abspath`. -/
  abspath : String → String
  /-- Source `os.path.realpath`. -/
  realpath : String → String
  /-- Source `os.getenv("SWIFT_EXEC")`: `none` when the variable is unset. -/
  envSwiftExec : Option String
  /-- The value of the module global `g_default_sysroot` (computed at import
  time via `xcrun --show-sdk-path`; only defined on Darwin, lines 43-46). -/
  defaultSysroot : String
  /-- The module global `g_project_root` (line 40). -/
  g_project_root : String

/-- Evaluating the module global `g_default_sysroot`: the `if` at line 43
only defines it on Darwin, so referencing it elsewhere raises NameError. -/
def g_default_sysroot (host : Host) : PyM String :=
  if host.isDarwin then pure host.defaultSysroot
  else throwE (PyErr.nameError "g_default_sysroot")

/-- Model of space-joining a command vector, Python str.join with a space. -/
def joinSpace (cmd : Cmd) : String := String.intercalate " " cmd

/-- Source `s.startswith(p)`, computed structurally over the character list. -/
def strStarts (s p : String) : Bool := p.toList.isPrefixOf s.toList

/-- Source `s.endswith(p)`, computed structurally over the character list. -/
def strEnds (s p : String) : Bool := p.toList.reverse.isPrefixOf s.toList.reverse

/-- POSIX `os.path.join` for two components. -/
def osJoin (a b : String) : String :=
  if strStarts b "/" then b
  else if a = "" then b
  else if strEnds a "/" then a ++ b
  else a ++ "/" ++ b

/-- Source `os.path.basename`: the part after the last slash, computed
structurally (accumulate characters, reset at each slash). -/
def basename (p : String) : String :=
  String.mk (p.toList.foldl (fun acc c => if c = '/' then [] else acc ++ [c]) [])

/-- Python truthiness of an optional string: `None` and `""` are falsy. -/
def pyTruthyStr : Option String → Bool
  | none => false
  | some s => !s.isEmpty

/-- Python `str()` of an optional string (`str(None) = "None"`). -/
def pyStr : Option String → String
  | none => "None"
  | some s => s

/-- Source `os.path.basename(sys.argv[0])`, used as the diagnostic prefix. -/
def program_name : String := "build-script-helper.py"

/-- The argparse namespace.  `build_dir`, `verbose`, `swiftc_path` and
`release` are registered by `add_global_args`/`add_build_args`
(lines 83-105) for the `build` and `test` subparsers.  All `Option`-typed
fields below default to `none`: no parser in `main` registers them
(`add_test_args`, lines 107-118, is never called), so reading them goes
through `nsAttr` and raises AttributeError.  `target_dir`, `conf` and
`bin_dir` are assigned by `clean_build_args` before any reachable read. -/
structure Ns where
  build_dir : String
  verbose : Bool
  swiftc_path : Option String
  release : Bool
  llbuild_build_dir : Option (Option String) := none
  llbuild_source_dir : Option (Option String) := none
  llbuild_link_framework : Option Bool := none
  bootstrap_dir : Option String := none
  install_prefixes : Option (List String) := none
  install_libspm : Option Bool := none
  parallel : Option Bool := none
  filter : Option (List String) := none
  target_dir : String := ""
  conf : String := ""
  bin_dir : String := ""
deriving DecidableEq

/-- The namespace produced by parsing a `build` or `test` command line:
exactly the attributes registered at lines 83-105 are set. -/
def parsed_build_ns (build_dir : String) (verbose : Bool)
    (swiftc_path : Option String) (release : Bool) : Ns :=
  { build_dir := build_dir, verbose := verbose,
    swiftc_path := swiftc_path, release := release }

/-- Option strings registered by `add_global_args` (lines 83-93). -/
def option_strings_global : List String := ["--build-dir", "-v", "--verbose"]

/-- Option strings registered by `add_build_args` (lines 95-105). -/
def option_strings_build : List String :=
  option_strings_global ++ ["--swiftc", "--release"]

/-- Option strings of the `test` subparser as actually wired in `main`:
line 73 calls `add_build_args(parser_test)`, not `add_test_args`. -/
def option_strings_test_wired : List String := option_strings_build

/-- Option strings `add_test_args` (lines 107-118) would register, had it
been wired to the `test` subparser. -/
def option_strings_test_intended : List String :=
  option_strings_build ++ ["--parallel", "--filter"]

/-- Minimal model of `argparse.parse_args`: a token that looks like an
option but is not a registered option string makes argparse report
unrecognized arguments and exit with status 2. -/
def parse_args_result (opts argv : List String) : Except PyErr Unit :=
  if argv.any (fun t => strStarts t "-" && !opts.contains t) then
    Except.error (PyErr.systemExit 2)
  else Except.ok ()

/-- Source `note` (lines 344-346). -/
def note (message : String) : PyM Unit :=
  pyPrint ("--- " ++ program_name ++ ": note: " ++ message)

/-- Source `error` (lines 348-351): print the diagnostic, then `raise SystemExit(1)`. -/
def error (message : String) : PyM Unit := do
  pyPrint ("--- " ++ program_name ++ ": error: " ++ message)
  throwE (PyErr.systemExit 1)

/-- Source `mkdir_p` (lines 365-372): a filesystem-only effect (EEXIST swallowed);
no claim depends on directory contents, so the model state does not track
directories. -/
def mkdir_p (path : String) : PyM Unit := pure ()

/-- Source `subprocess.check_call(cmd, cwd=cwd)`: record the spawn, return 0 on
success, raise CalledProcessError on nonzero exit.  The working directory
does not affect any claim, so the trace records the command vector. -/
def check_call (host : Host) (cmd : Cmd) (cwd : Option String) : PyM Int :=
  fun s =>
    let s' := { s with execd := s.execd ++ [cmd] }
    if (host.run cmd).1 = 0 then (Except.ok 0, s')
    else (Except.error (PyErr.calledProcessError cmd), s')

/-- Source `subprocess.check_output(cmd, ...)`: record the spawn, return captured
stdout on success, raise CalledProcessError on nonzero exit. -/
def check_output (host : Host) (cmd : Cmd) (cwd : Option String) : PyM String :=
  fun s =>
    let s' := { s with execd := s.execd ++ [cmd] }
    if (host.run cmd).1 = 0 then (Except.ok (host.run cmd).2, s')
    else (Except.error (PyErr.calledProcessError cmd), s')

/-- Evaluating the local variable `result` in the except handler of `call`
(line 384): the assignment at line 378 never completes when `check_call`
raises, so the name is unbound and the reference raises NameError. -/
def localResult : PyM Int := throwE (PyErr.nameError "result")

/-- Source `call` (lines 374-384): echo the command when verbose, run it; on any
exception echo the command when not verbose, then evaluate the diagnostic
`"command failed with exit status %d" % (result,)` — which references the
unbound local `result` — before `error` could be called. -/
def call (host : Host) (args : Ns) (cmd : Cmd) (cwd : Option String) : PyM Unit := do
  if args.verbose then pyPrint (joinSpace cmd)
  tryE
    (do
      let result ← check_call host cmd cwd
      if result ≠ 0 then throwE PyErr.exception)
    (fun _ => do
      if !args.verbose then pyPrint (joinSpace cmd)
      let r ← localResult
      error ("command failed with exit status " ++ toString r))

/-- Source `call_output` (lines 386-389). -/
def call_output (host : Host) (args : Ns) (cmd : Cmd) (cwd : Option String) :
    PyM String := do
  if args.verbose then pyPrint (joinSpace cmd)
  check_output host cmd cwd

/-- The suffix normalisation at lines 187-188: a resolved `SWIFT_EXEC`
whose basename is `swift` gets a `c` appended. -/
def swiftc_env_normalize (p : String) : String :=
  if basename p = "swift" then p ++ "c" else p

/-- Source `get_swiftc_path` (lines 183-197).  Note that the `swift` → `swiftc`
normalisation applies only to the `SWIFT_EXEC` environment hint; the
`--swiftc` flag never reaches this function when set (line 129). -/
def get_swiftc_path (host : Host) (args : Ns) : PyM String :=
  tryE
    (if pyTruthyStr host.envSwiftExec then
      pure (swiftc_env_normalize (host.realpath (pyStr host.envSwiftExec)))
    else if host.isDarwin then do
      let o ← call_output host args ["xcrun", "--find", "swiftc"] none
      pure o.trim
    else do
      let o ← call_output host args ["which", "swiftc"] none
      pure o.trim)
    (fun _ => do
      error ("unable to find \x27swiftc\x27 tool for bootstrap build")
      pure "")

/-- Source `get_build_target` (lines 213-217). -/
def get_build_target (host : Host) (args : Ns) : PyM String :=
  if host.isDarwin then pure "x86_64-apple-macosx"
  else do
    let o ← call_output host args ["clang", "--print-target-triple"] none
    pure o.trim

/-- Source `clean_global_args` (lines 120-121). -/
def clean_global_args (host : Host) (args : Ns) : Ns :=
  { args with build_dir := host.abspath args.build_dir }

/-- Lines 130-132 of `clean_build_args`: derive `target_dir`, `conf` and
`bin_dir` from the build directory, the build target and the release
flag. -/
def derive_dirs (host : Host) (args3 : Ns) : PyM Ns := do
  let t ← get_build_target host args3
  let args4 := { args3 with target_dir := osJoin args3.build_dir t }
  let args5 := { args4 with conf := if args4.release then "release" else "debug" }
  pure { args5 with bin_dir := osJoin args5.target_dir args5.conf }

/-- Source `clean_build_args` (lines 123-132): absolutise paths, resolve the
compiler, derive `target_dir`, `conf` and `bin_dir`. -/
def clean_build_args (host : Host) (args0 : Ns) : PyM Ns := do
  let args1 := clean_global_args host args0
  let args2 :=
    if pyTruthyStr args1.swiftc_path then
      { args1 with swiftc_path := some (host.abspath (pyStr args1.swiftc_path)) }
    else args1
  let args3 ←
    if pyTruthyStr args2.swiftc_path then pure args2
    else do
      let p ← get_swiftc_path host args2
      pure { args2 with swiftc_path := some p }
  derive_dirs host args3

/-- Source `get_llbuild_cmake_arg` (lines 199-204), with the two namespace
attribute reads hoisted to parameters. -/
def get_llbuild_cmake_arg (llbuild_link_framework : Bool)
    (llbuild_build_dir : String) : String :=
  if llbuild_link_framework then "-DLLBUILD_FRAMEWORK=" ++ llbuild_build_dir
  else "-DLLBuild_DIR=" ++ osJoin llbuild_build_dir "cmake/modules"

/-- Source `get_llbuild_source_path` (lines 206-211). -/
def get_llbuild_source_path (host : Host) (args : Ns) : PyM String := do
  let llbuild_path := osJoin (osJoin host.g_project_root "..") "llbuild"
  if host.pathExists llbuild_path then pure llbuild_path
  else do
    note "clone llbuild next to swiftpm directory; see development docs: https://github.com/apple/swift-package-manager/blob/master/Documentation/Development.md#using-trunk-snapshot"
    error ("unable to find llbuild source directory at " ++ llbuild_path)
    pure ""

/-- Source `get_swiftpm_env_cmd` (lines 219-242), with the five namespace
attribute reads hoisted to parameters (the `build`/`test` parsers never
define `bootstrap_dir`, `llbuild_build_dir` or `llbuild_link_framework`). -/
def get_swiftpm_env_cmd (swiftc_path build_dir bootstrap_dir
    llbuild_build_dir : String) (llbuild_link_framework : Bool) : List String :=
  let libs_joined := String.intercalate ":"
    [osJoin bootstrap_dir "lib", osJoin llbuild_build_dir "lib"]
  ["env",
   "SWIFT_EXEC=" ++ swiftc_path,
   "SWIFTPM_BUILD_DIR=" ++ build_dir,
   "SWIFTPM_PD_LIBS=" ++ osJoin bootstrap_dir "pm"]
  ++ (if llbuild_link_framework then
        ["DYLD_FRAMEWORK_PATH=" ++ llbuild_build_dir, "SWIFTPM_BOOTSTRAP=1"]
      else ["SWIFTCI_USE_LOCAL_DEPS=1"])
  ++ ["DYLD_LIBRARY_PATH=" ++ libs_joined, "LD_LIBRARY_PATH=" ++ libs_joined]

/-- Source `get_swiftpm_flags` (lines 244-256). -/
def get_swiftpm_flags (args : Ns) : List String :=
  ["--disable-index-store"]
  ++ (if args.release then
        ["-Xswiftc", "-enable-testing", "--configuration", "release"]
      else [])

/-- The ninja invocation of `build_with_cmake` (lines 290-293): `-v` is
appended when verbose. -/
def ninjaCmd (args : Ns) : Cmd :=
  if args.verbose then ["ninja", "-v"] else ["ninja"]

/-- The cmake invocation assembled at lines 272-281. -/
def cmakeCmd (host : Host) (args : Ns) (cmake_args : List String)
    (source_path : String) : Cmd :=
  let swift_flags := if host.isDarwin then "-sdk " ++ host.defaultSysroot else ""
  ["cmake", "-G", "Ninja",
   "-DCMAKE_BUILD_TYPE:=Debug",
   "-DCMAKE_Swift_FLAGS=" ++ swift_flags,
   "-DCMAKE_Swift_COMPILER:=" ++ pyStr args.swiftc_path]
  ++ cmake_args ++ [source_path]

/-- Source `build_with_cmake` (lines 268-295): run cmake only when the
`CMakeCache.txt` marker is missing, then always run ninja. -/
def build_with_cmake (host : Host) (args : Ns) (cmake_args : List String)
    (source_path build_dir : String) : PyM Unit := do
  let cache_path := osJoin build_dir "CMakeCache.txt"
  if !(host.isfile cache_path) then do
    let cmd := cmakeCmd host args cmake_args source_path
    if args.verbose then pyPrint (joinSpace cmd)
    mkdir_p build_dir
    call host args cmd (some build_dir)
  call host args (ninjaCmd args) (some build_dir)

/-- Source `make_symlinks` (lines 262-266): reads `args.bootstrap_dir` (an
attribute no parser defines); link creation itself is a filesystem-only
effect not tracked by the model state. -/
def make_symlinks (args : Ns) : PyM Unit := do
  let _ ← nsAttr args.bootstrap_dir "bootstrap_dir"
  pure ()

/-- Source `build_llbuild` (lines 297-313). -/
def build_llbuild (host : Host) (args : Ns) : PyM Ns := do
  note "Building llbuild"
  let lbd := osJoin args.target_dir "llbuild"
  let args := { args with llbuild_build_dir := some (some lbd) }
  let api_dir := osJoin lbd ".cmake/api/v1/query"
  mkdir_p api_dir
  call host args ["touch", "codemodel-v2"] (some api_dir)
  let lsrc ← nsAttr args.llbuild_source_dir "llbuild_source_dir"
  let llbuild_source_dir ←
    if pyTruthyStr lsrc then pure (pyStr lsrc)
    else get_llbuild_source_path host args
  let sysroot ← g_default_sysroot host
  build_with_cmake host args
    ["-DCMAKE_C_COMPILER:=clang",
     "-DCMAKE_CXX_COMPILER:=clang++",
     "-DLLBUILD_SUPPORT_BINDINGS:=Swift",
     "-DSQLite3_INCLUDE_DIR=" ++ sysroot ++ "/usr/include"]
    llbuild_source_dir lbd
  pure args

/-- Source `build_swiftpm_with_cmake` (lines 315-326): every namespace attribute
it needs (`llbuild_link_framework`, `llbuild_build_dir`,
`install_prefixes`, `install_libspm`, `bootstrap_dir`) is undefined for
the parsers `main` wires up. -/
def build_swiftpm_with_cmake (host : Host) (args : Ns) : PyM Unit := do
  note "Building SwiftPM (with CMake)"
  let fw ← nsAttr args.llbuild_link_framework "llbuild_link_framework"
  let lbd ← nsAttr args.llbuild_build_dir "llbuild_build_dir"
  let prefixes ← nsAttr args.install_prefixes "install_prefixes"
  let libspm ← nsAttr args.install_libspm "install_libspm"
  let bdir ← nsAttr args.bootstrap_dir "bootstrap_dir"
  build_with_cmake host args
    [get_llbuild_cmake_arg fw (pyStr lbd),
     "-DSWIFTPM_BUILD_DIR=" ++ args.bin_dir,
     "-DUSE_VENDORED_TSC=ON",
     "-DCMAKE_INSTALL_PREFIX=" ++ prefixes.headD "",
     "-DINSTALL_LIBSWIFTPM=" ++ (if libspm then "ON" else "OFF")]
    host.g_project_root bdir
  make_symlinks args

/-- Source `call_swiftpm` (lines 328-330): prepend the environment overlay to the
child command vector, append the build flags, run from the project root. -/
def call_swiftpm (host : Host) (args : Ns) (bootstrap_dir llbuild_build_dir : String)
    (llbuild_link_framework : Bool) (cmd : Cmd) : PyM Unit :=
  let full_cmd :=
    get_swiftpm_env_cmd (pyStr args.swiftc_path) args.build_dir bootstrap_dir
      llbuild_build_dir llbuild_link_framework
    ++ cmd ++ get_swiftpm_flags args
  call host args full_cmd (some host.g_project_root)

/-- Source `build_swiftpm_with_swiftpm` (lines 332-338). -/
def build_swiftpm_with_swiftpm (host : Host) (args : Ns) : PyM Unit := do
  note "Building SwiftPM (with swift-build)"
  let bdir ← nsAttr args.bootstrap_dir "bootstrap_dir"
  let fw ← nsAttr args.llbuild_link_framework "llbuild_link_framework"
  let lbd ← nsAttr args.llbuild_build_dir "llbuild_build_dir"
  call_swiftpm host args bdir (pyStr lbd) fw
    [osJoin bdir "bin/swift-build", "--build-tests"]

/-- Source `build` (lines 148-157): clean the arguments, then Stage 1 (llbuild),
Stage 2 (CMake bootstrap), Stage 3 (self-hosted build).  Line 153 reads
`args.llbuild_build_dir`, an attribute never registered by any parser. -/
def build (host : Host) (args : Ns) : PyM Unit := do
  let args ← clean_build_args host args
  let lbd ← nsAttr args.llbuild_build_dir "llbuild_build_dir"
  let args ←
    if pyTruthyStr lbd then pure args
    else build_llbuild host args
  build_swiftpm_with_cmake host args
  build_swiftpm_with_swiftpm host args

/-- The test-runner command assembled by `test` (lines 165-169): runner
path, `--parallel` when the parallel flag is on, then each filter as a
repeated `--filter NAME` pair. -/
def test_runner_cmd (bin_dir : String) (parallel : Bool)
    (filter : List String) : Cmd :=
  [osJoin bin_dir "swift-test"]
  ++ (if parallel then ["--parallel"] else [])
  ++ filter.flatMap (fun arg => ["--filter", arg])

/-- Source `test` (lines 159-170): build, then run the test runner.  Reads
`args.parallel` and `args.filter`, which the wired parser never defines. -/
def test (host : Host) (args : Ns) : PyM Unit := do
  build host args
  note "Testing"
  let args ← clean_build_args host args
  let par ← nsAttr args.parallel "parallel"
  let filt ← nsAttr args.filter "filter"
  let bdir ← nsAttr args.bootstrap_dir "bootstrap_dir"
  let fw ← nsAttr args.llbuild_link_framework "llbuild_link_framework"
  let lbd ← nsAttr args.llbuild_build_dir "llbuild_build_dir"
  call_swiftpm host args bdir (pyStr lbd) fw
    (test_runner_cmd args.bin_dir par filt)

/-- Source `clean` (lines 141-146). -/
def clean (host : Host) (args : Ns) : PyM Unit := do
  note "Cleaning"
  let args := clean_global_args host args
  call host args ["rm", "-rf", args.build_dir] none

/-- Process exit status of a finished top-level run: `SystemExit(n)` exits
with `n`; any other uncaught exception makes the interpreter print a
traceback and exit 1; normal return exits 0. -/
def pyExitCode {α : Type} : Except PyErr α → Nat
  | Except.ok _ => 0
  | Except.error (PyErr.systemExit n) => n
  | Except.error _ => 1

/-- The rewrite a verbose run applies to an executed compile-step vector:
only the bare ninja invocation gains `-v`. -/
def addNinjaVerbose (c : Cmd) : Cmd :=
  if c = ["ninja"] then ["ninja", "-v"] else c

/-- Whether an executed command vector is a configure (cmake) invocation. -/
def isConfigureCmd (c : Cmd) : Bool := c.head? == some "cmake"

/- Concrete fixtures used by witnesses and counterexamples. -/

/-- A Darwin host where every external command succeeds and no marker file
exists. -/
def hostOK : Host :=
  { isDarwin := true
    run := fun _ => (0, "")
    isfile := fun _ => false
    pathExists := fun _ => true
    abspath := fun p => if strStarts p "/" then p else "/cwd/" ++ p
    realpath := fun p => p
    envSwiftExec := none
    defaultSysroot := "/SDK"
    g_project_root := "/proj" }

/-- A host where every external command fails with exit status 1. -/
def hostFail : Host :=
  { hostOK with run := fun _ => (1, "") }

/-- A host where the configuration marker `CMakeCache.txt` already exists. -/
def hostCache : Host :=
  { hostOK with isfile := fun _ => true }

/-- A host with `SWIFT_EXEC` set to a path whose basename is `swift`. -/
def hostEnvSwift : Host :=
  { hostOK with envSwiftExec := some "/toolchain/bin/swift" }

/-- A non-Darwin host with no `SWIFT_EXEC` where `which swiftc` fails. -/
def hostNoSwiftc : Host :=
  { hostOK with
    isDarwin := false
    run := fun cmd => if cmd = ["which", "swiftc"] then (1, "") else (0, "") }

/-- Initial process state. -/
def st0 : PyState := { out := [], execd := [], env := [("PATH", "/usr/bin")] }

/-- Parsed namespace for `build --swiftc /usr/bin/swiftc`. -/
def nsC1 : Ns := parsed_build_ns ".build" false (some "/usr/bin/swiftc") false

/-- Parsed namespace used by the C2 witness. -/
def nsC2 : Ns := parsed_build_ns "/b" false (some "/usr/bin/swiftc") false

/-- Failing command used by the C2 witness. -/
def cmdC2 : Cmd := ["cmake", "-G", "Ninja"]

/-- A later-stage action used by the C2 witness as the continuation. -/
def contC2 : PyM Unit := call hostFail nsC2 ["ninja"] none

/-- Parsed namespace used by the C5 witness. -/
def nsC5 : Ns := parsed_build_ns "/b" false (some "/usr/bin/swiftc") false

/-- Result of `clean_build_args hostOK nsC5`. -/
def nsC5res : Ns :=
  { build_dir := "/b", verbose := false, swiftc_path := some "/usr/bin/swiftc",
    release := false, target_dir := "/b/x86_64-apple-macosx", conf := "debug",
    bin_dir := "/b/x86_64-apple-macosx/debug" }

/-- Parsed namespace for `build --swiftc /usr/bin/swift` (basename `swift`). -/
def nsC6 : Ns := parsed_build_ns ".build" false (some "/usr/bin/swift") false

/-- Result of `clean_build_args hostOK nsC6`: the override is kept verbatim,
no `swift` → `swiftc` rewriting happens. -/
def nsC6res : Ns :=
  { build_dir := "/cwd/.build", verbose := false,
    swiftc_path := some "/usr/bin/swift", release := false,
    target_dir := "/cwd/.build/x86_64-apple-macosx", conf := "debug",
    bin_dir := "/cwd/.build/x86_64-apple-macosx/debug" }

/-- Verbose and non-verbose namespaces differing only in the verbose flag. -/
def nsC8v : Ns := parsed_build_ns "/b" true (some "/s") false

/-- Non-verbose twin of `nsC8v`. -/
def nsC8nv : Ns := parsed_build_ns "/b" false (some "/s") false

/-- Verbose namespace used by the C10 witness. -/
def nsC10 : Ns := parsed_build_ns "/b" true (some "/s") false

/-- Failing command used by the C10 witness. -/
def cmdC10 : Cmd := ["ninja"]

/-- Namespace used by the C4 witness. -/
def nsC4 : Ns := parsed_build_ns "/b" false (some "/usr/bin/swiftc") false

/-- Release-mode namespace for the C7 witness. -/
def nsRel : Ns := parsed_build_ns "/b" false (some "/s") true

/-- Debug-mode namespace for the C7 witness. -/
def nsDbg : Ns := parsed_build_ns "/b" false (some "/s") false

/- Helper lemmas about the monadic embedding. -/

theorem PyM.bind_apply {α β : Type} (m : PyM α) (f : α → PyM β) (s : PyState) :
    (m >>= f) s =
      match m s with
      | (Except.ok a, s') => f a s'
      | (Except.error e, s') => (Except.error e, s') := rfl

theorem PyM.pure_apply {α : Type} (a : α) (s : PyState) :
    (pure a : PyM α) s = (Except.ok a, s) := rfl

/-- Source `call` on a failing command: the command is echoed exactly once, the
spawn is recorded, and the handler raises NameError on the unbound local
`result`, bypassing the `error` abort path. -/
theorem call_fail (host : Host) (args : Ns) (cmd : Cmd) (cwd : Option String)
    (s : PyState) (h : (host.run cmd).1 ≠ 0) :
    call host args cmd cwd s =
      (Except.error (PyErr.nameError "result"),
       { s with out := s.out ++ [joinSpace cmd], execd := s.execd ++ [cmd] }) := by
  cases hv : args.verbose <;>
    simp [call, hv, tryE, pyPrint, check_call, throwE, localResult, error,
          PyM.bind_apply, PyM.pure_apply, h]

/-- Source `call` on a succeeding command: echoed only when verbose, spawn
recorded, normal return. -/
theorem call_success (host : Host) (args : Ns) (cmd : Cmd) (cwd : Option String)
    (s : PyState) (h : (host.run cmd).1 = 0) :
    call host args cmd cwd s =
      (Except.ok (),
       { s with out := s.out ++ (if args.verbose then [joinSpace cmd] else []),
                execd := s.execd ++ [cmd] }) := by
  cases hv : args.verbose <;>
    simp [call, hv, tryE, pyPrint, check_call, throwE, localResult, error,
          PyM.bind_apply, PyM.pure_apply, h]

/-- Every `call` records exactly its own command vector, whether the
command succeeds or fails. -/
theorem call_execd (host : Host) (args : Ns) (cmd : Cmd) (cwd : Option String)
    (s : PyState) :
    (call host args cmd cwd s).2.execd = s.execd ++ [cmd] := by
  by_cases h : (host.run cmd).1 = 0
  · rw [call_success host args cmd cwd s h]
  · rw [call_fail host args cmd cwd s h]

/-- Source `call` never touches the parent process environment. -/
theorem call_env (host : Host) (args : Ns) (cmd : Cmd) (cwd : Option String)
    (s : PyState) :
    (call host args cmd cwd s).2.env = s.env := by
  by_cases h : (host.run cmd).1 = 0
  · rw [call_success host args cmd cwd s h]
  · rw [call_fail host args cmd cwd s h]

/-- Exact executed-command trace of one `build_with_cmake` invocation:
only ninja when the marker exists; otherwise cmake, then ninja only if
cmake succeeded. -/
theorem bwc_execd (host : Host) (args : Ns) (ca : List String) (sp bd : String)
    (s : PyState) :
    (build_with_cmake host args ca sp bd s).2.execd =
      s.execd ++
        (if host.isfile (osJoin bd "CMakeCache.txt") then [ninjaCmd args]
         else if (host.run (cmakeCmd host args ca sp)).1 = 0 then
           [cmakeCmd host args ca sp, ninjaCmd args]
         else [cmakeCmd host args ca sp]) := by
  by_cases hf : host.isfile (osJoin bd "CMakeCache.txt")
  · simp [build_with_cmake, hf, PyM.bind_apply, PyM.pure_apply, call_execd]
  · by_cases hr : (host.run (cmakeCmd host args ca sp)).1 = 0
    · cases hv : args.verbose <;>
        simp [build_with_cmake, hf, hv, hr, mkdir_p, pyPrint,
              PyM.bind_apply, PyM.pure_apply, call_success, call_execd]
    · cases hv : args.verbose <;>
        simp [build_with_cmake, hf, hv, hr, mkdir_p, pyPrint,
              PyM.bind_apply, PyM.pure_apply, call_fail]

/-- Source `build_with_cmake` never touches the parent process environment. -/
theorem bwc_env (host : Host) (args : Ns) (ca : List String) (sp bd : String)
    (s : PyState) :
    (build_with_cmake host args ca sp bd s).2.env = s.env := by
  by_cases hf : host.isfile (osJoin bd "CMakeCache.txt")
  · simp [build_with_cmake, hf, PyM.bind_apply, PyM.pure_apply, call_env]
  · by_cases hr : (host.run (cmakeCmd host args ca sp)).1 = 0
    · cases hv : args.verbose <;>
        simp [build_with_cmake, hf, hv, hr, mkdir_p, pyPrint,
              PyM.bind_apply, PyM.pure_apply, call_success, call_env]
    · cases hv : args.verbose <;>
        simp [build_with_cmake, hf, hv, hr, mkdir_p, pyPrint,
              PyM.bind_apply, PyM.pure_apply, call_fail]

theorem isConfigureCmd_cmake (host : Host) (args : Ns) (ca : List String)
    (sp : String) : isConfigureCmd (cmakeCmd host args ca sp) = true := rfl

theorem isConfigureCmd_ninja (args : Ns) : isConfigureCmd (ninjaCmd args) = false := by
  cases hv : args.verbose <;> simp [isConfigureCmd, ninjaCmd, hv]

/-- Claim C2: when an external command run through `call` exits nonzero,
the failure propagates as an exception so no continuation (no later
stage) spawns anything, the process exit status is nonzero, and the
literal command vector appears in the diagnostic output whatever the
verbose flag is. -/
theorem c2_failing_command_aborts (host : Host) (args : Ns) (cmd : Cmd)
    (cwd : Option String) (k : PyM Unit) (s : PyState)
    (h : (host.run cmd).1 ≠ 0) :
    ((call host args cmd cwd >>= fun _ => k) s).1 =
        Except.error (PyErr.nameError "result") ∧
    pyExitCode ((call host args cmd cwd >>= fun _ => k) s).1 ≠ 0 ∧
    joinSpace cmd ∈ ((call host args cmd cwd >>= fun _ => k) s).2.out ∧
    ((call host args cmd cwd >>= fun _ => k) s).2.execd = s.execd ++ [cmd] := by
  rw [PyM.bind_apply, call_fail host args cmd cwd s h]
  simp [pyExitCode]

theorem c2_failing_command_aborts_witness :
    ((call hostFail nsC2 cmdC2 (some "/b") >>= fun _ => contC2) st0).1 =
        Except.error (PyErr.nameError "result") ∧
    pyExitCode ((call hostFail nsC2 cmdC2 (some "/b") >>= fun _ => contC2) st0).1 ≠ 0 ∧
    joinSpace cmdC2 ∈ ((call hostFail nsC2 cmdC2 (some "/b") >>= fun _ => contC2) st0).2.out ∧
    ((call hostFail nsC2 cmdC2 (some "/b") >>= fun _ => contC2) st0).2.execd =
      st0.execd ++ [cmdC2] :=
  c2_failing_command_aborts hostFail nsC2 cmdC2 (some "/b") contC2 st0 (by decide)

/-- Claim C10: whenever the spawned child fails, the except handler of
`call` references the never-assigned local `result`, so the run ends in
NameError: the exit status is the interpreter default 1 (nonzero), the
explicit `SystemExit` abort path of `error` is never reached, and the
only line added to the output is the echoed command — the
`command failed with exit status` diagnostic is never printed. -/
theorem c10_except_handler_raises_name_error (host : Host) (args : Ns)
    (cmd : Cmd) (cwd : Option String) (s : PyState)
    (h : (host.run cmd).1 ≠ 0) :
    call host args cmd cwd s =
      (Except.error (PyErr.nameError "result"),
       { s with out := s.out ++ [joinSpace cmd], execd := s.execd ++ [cmd] }) ∧
    pyExitCode (call host args cmd cwd s).1 = 1 ∧
    (∀ n : Nat, (call host args cmd cwd s).1 ≠ Except.error (PyErr.systemExit n)) ∧
    (∀ line ∈ (call host args cmd cwd s).2.out, line ∈ s.out ∨ line = joinSpace cmd) := by
  have hc := call_fail host args cmd cwd s h
  refine ⟨hc, ?_, ?_, ?_⟩
  · rw [hc]
    rfl
  · intro n
    rw [hc]
    simp
  · intro line hl
    rw [hc] at hl
    simp only [List.mem_append, List.mem_singleton] at hl
    exact hl

theorem c10_except_handler_raises_name_error_witness :
    call hostFail nsC10 cmdC10 none st0 =
      (Except.error (PyErr.nameError "result"),
       { st0 with out := st0.out ++ [joinSpace cmdC10],
                  execd := st0.execd ++ [cmdC10] }) ∧
    pyExitCode (call hostFail nsC10 cmdC10 none st0).1 = 1 ∧
    (∀ n : Nat, (call hostFail nsC10 cmdC10 none st0).1 ≠
        Except.error (PyErr.systemExit n)) ∧
    (∀ line ∈ (call hostFail nsC10 cmdC10 none st0).2.out,
        line ∈ st0.out ∨ line = joinSpace cmdC10) :=
  c10_except_handler_raises_name_error hostFail nsC10 cmdC10 none st0 (by decide)

/-- Claim C4: one run of the configure-then-compile procedure over a build
directory runs the configure step at most once, and when the
`CMakeCache.txt` descriptor already exists in the build directory the
configure step is not invoked at all — only the compile (ninja) step
runs. -/
theorem c4_configure_skip_and_at_most_once (host : Host) (args : Ns)
    (cmake_args : List String) (source_path build_dir : String) (s : PyState) :
    (build_with_cmake host args cmake_args source_path build_dir s).2.execd =
      s.execd ++
        (if host.isfile (osJoin build_dir "CMakeCache.txt") then [ninjaCmd args]
         else if (host.run (cmakeCmd host args cmake_args source_path)).1 = 0 then
           [cmakeCmd host args cmake_args source_path, ninjaCmd args]
         else [cmakeCmd host args cmake_args source_path]) ∧
    ((if host.isfile (osJoin build_dir "CMakeCache.txt") then [ninjaCmd args]
      else if (host.run (cmakeCmd host args cmake_args source_path)).1 = 0 then
        [cmakeCmd host args cmake_args source_path, ninjaCmd args]
      else [cmakeCmd host args cmake_args source_path]).countP isConfigureCmd) ≤ 1 := by
  refine ⟨bwc_execd host args cmake_args source_path build_dir s, ?_⟩
  by_cases hf : host.isfile (osJoin build_dir "CMakeCache.txt") <;>
    by_cases hr : (host.run (cmakeCmd host args cmake_args source_path)).1 = 0 <;>
      simp [hf, hr, List.countP_cons, List.countP_nil,
            isConfigureCmd_cmake, isConfigureCmd_ninja]

theorem c4_configure_skip_and_at_most_once_witness :
    (build_with_cmake hostCache nsC4 [] "/src" "/bld" st0).2.execd =
      st0.execd ++
        (if hostCache.isfile (osJoin "/bld" "CMakeCache.txt") then [ninjaCmd nsC4]
         else if (hostCache.run (cmakeCmd hostCache nsC4 [] "/src")).1 = 0 then
           [cmakeCmd hostCache nsC4 [] "/src", ninjaCmd nsC4]
         else [cmakeCmd hostCache nsC4 [] "/src"]) ∧
    ((if hostCache.isfile (osJoin "/bld" "CMakeCache.txt") then [ninjaCmd nsC4]
      else if (hostCache.run (cmakeCmd hostCache nsC4 [] "/src")).1 = 0 then
        [cmakeCmd hostCache nsC4 [] "/src", ninjaCmd nsC4]
      else [cmakeCmd hostCache nsC4 [] "/src"]).countP isConfigureCmd) ≤ 1 :=
  c4_configure_skip_and_at_most_once hostCache nsC4 [] "/src" "/bld" st0

theorem pyTruthyStr_some (x : String) : pyTruthyStr (some x) = !x.isEmpty := rfl

/-- Source `get_build_target` on Darwin: the hard-coded triple, no effects. -/
theorem get_build_target_darwin (host : Host) (args : Ns) (s : PyState)
    (hd : host.isDarwin = true) :
    get_build_target host args s = (Except.ok "x86_64-apple-macosx", s) := by
  simp [get_build_target, hd, PyM.pure_apply]

/-- Source `get_build_target` elsewhere, `clang --print-target-triple` succeeding:
trimmed clang output, spawn recorded. -/
theorem get_build_target_other_ok (host : Host) (args : Ns) (s : PyState)
    (hd : host.isDarwin = false)
    (hr : (host.run ["clang", "--print-target-triple"]).1 = 0) :
    get_build_target host args s =
      (Except.ok (host.run ["clang", "--print-target-triple"]).2.trim,
       { s with
           out := s.out ++
             (if args.verbose then [joinSpace ["clang", "--print-target-triple"]] else []),
           execd := s.execd ++ [["clang", "--print-target-triple"]] }) := by
  cases hv : args.verbose <;>
    simp [get_build_target, hd, hv, hr, call_output, check_output, pyPrint,
          PyM.bind_apply, PyM.pure_apply]

/-- Source `get_build_target` elsewhere, clang failing: CalledProcessError
propagates (nothing catches it in `clean_build_args`). -/
theorem get_build_target_other_fail (host : Host) (args : Ns) (s : PyState)
    (hd : host.isDarwin = false)
    (hr : (host.run ["clang", "--print-target-triple"]).1 ≠ 0) :
    (get_build_target host args s).1 =
      Except.error (PyErr.calledProcessError ["clang", "--print-target-triple"]) := by
  cases hv : args.verbose <;>
    simp [get_build_target, hd, hv, hr, call_output, check_output, pyPrint,
          PyM.bind_apply, PyM.pure_apply]

/-- On success, `derive_dirs` only rewrites `target_dir`, `conf` and
`bin_dir`, using the resolved build target and the release flag. -/
theorem derive_dirs_ok (host : Host) (args3 : Ns) (s : PyState) (a : Ns)
    (s' : PyState) (h : derive_dirs host args3 s = (Except.ok a, s')) :
    a = { args3 with
            target_dir := osJoin args3.build_dir
              (if host.isDarwin then "x86_64-apple-macosx"
               else (host.run ["clang", "--print-target-triple"]).2.trim),
            conf := if args3.release then "release" else "debug",
            bin_dir := osJoin
              (osJoin args3.build_dir
                (if host.isDarwin then "x86_64-apple-macosx"
                 else (host.run ["clang", "--print-target-triple"]).2.trim))
              (if args3.release then "release" else "debug") } := by
  by_cases hd : host.isDarwin
  · rw [derive_dirs, PyM.bind_apply, get_build_target_darwin host args3 s hd] at h
    simp only [PyM.pure_apply, Prod.mk.injEq, Except.ok.injEq] at h
    simp [hd, h.1.symm]
  · by_cases hr : (host.run ["clang", "--print-target-triple"]).1 = 0
    · rw [derive_dirs, PyM.bind_apply,
        get_build_target_other_ok host args3 s (by simpa using hd) hr] at h
      simp only [PyM.pure_apply, Prod.mk.injEq, Except.ok.injEq] at h
      simp [hd, h.1.symm]
    · exfalso
      rw [derive_dirs, PyM.bind_apply] at h
      rcases hg : get_build_target host args3 s with ⟨r, sg⟩
      have := get_build_target_other_fail host args3 s (by simpa using hd) hr
      rw [hg] at h this
      simp at this
      rw [this] at h
      simp at h

/-- On success, `clean_build_args` yields the input namespace with
`build_dir` absolutised, some resolved compiler path, and the derived
`target_dir`, `conf` and `bin_dir`; when the `--swiftc` override is set
(and its absolutised form nonempty), the resolved compiler path is
exactly the absolutised override. -/
theorem clean_build_args_ok (host : Host) (args : Ns) (s : PyState) (a : Ns)
    (s' : PyState) (h : clean_build_args host args s = (Except.ok a, s')) :
    ∃ sp : String,
      a = { args with
              build_dir := host.abspath args.build_dir,
              swiftc_path := some sp,
              target_dir := osJoin (host.abspath args.build_dir)
                (if host.isDarwin then "x86_64-apple-macosx"
                 else (host.run ["clang", "--print-target-triple"]).2.trim),
              conf := if args.release then "release" else "debug",
              bin_dir := osJoin
                (osJoin (host.abspath args.build_dir)
                  (if host.isDarwin then "x86_64-apple-macosx"
                   else (host.run ["clang", "--print-target-triple"]).2.trim))
                (if args.release then "release" else "debug") } ∧
      (pyTruthyStr args.swiftc_path = true →
        (host.abspath (pyStr args.swiftc_path)).isEmpty = false →
        sp = host.abspath (pyStr args.swiftc_path)) := by
  rw [clean_build_args] at h
  simp only [clean_global_args, PyM.bind_apply, PyM.pure_apply] at h
  by_cases hT : pyTruthyStr args.swiftc_path
  · simp only [hT, if_true, pyTruthyStr_some] at h
    by_cases hE : (host.abspath (pyStr args.swiftc_path)).isEmpty
    · -- the absolutised override is empty (never in Python): discovery runs,
      -- and the override clause of the conclusion is vacuous
      simp only [hE, Bool.not_true, Bool.false_eq_true, if_false, PyM.bind_apply,
        PyM.pure_apply] at h
      rcases hg : get_swiftc_path host
          { args with build_dir := host.abspath args.build_dir,
                      swiftc_path := some (host.abspath (pyStr args.swiftc_path)) }
          s with ⟨r, s1⟩
      rw [hg] at h
      cases r with
      | error e => simp at h
      | ok p =>
        refine ⟨p, (derive_dirs_ok host _ _ _ _ h).trans (by simp), ?_⟩
        intro _ hne
        rw [hE] at hne
        cases hne
    · simp only [hE, Bool.not_false, if_true, PyM.pure_apply] at h
      refine ⟨host.abspath (pyStr args.swiftc_path),
        (derive_dirs_ok host _ _ _ _ h).trans (by simp), fun _ _ => rfl⟩
  · simp only [hT, Bool.false_eq_true, if_false, PyM.bind_apply, PyM.pure_apply] at h
    rcases hg : get_swiftc_path host
        { args with build_dir := host.abspath args.build_dir } s with ⟨r, s1⟩
    rw [hg] at h
    cases r with
    | error e => simp at h
    | ok p =>
      refine ⟨p, (derive_dirs_ok host _ _ _ _ h).trans (by simp), ?_⟩
      intro ht _
      exact absurd ht hT

/-- Source `get_swiftc_path` with `SWIFT_EXEC` set (and nonempty): its real path,
with the `swift` → `swiftc` basename normalisation; no effects. -/
theorem get_swiftc_path_env (host : Host) (args : Ns) (s : PyState)
    (hE : pyTruthyStr host.envSwiftExec = true) :
    get_swiftc_path host args s =
      (Except.ok (swiftc_env_normalize (host.realpath (pyStr host.envSwiftExec))), s) := by
  simp [get_swiftc_path, tryE, hE, PyM.pure_apply]

/-- Source `get_swiftc_path` with no `SWIFT_EXEC`, off Darwin, and `which swiftc`
failing: the bare `except` catches the CalledProcessError and `error`
aborts with SystemExit(1) after printing the tool-not-found diagnostic. -/
theorem get_swiftc_path_which_fail (host : Host) (args : Ns) (s : PyState)
    (hE : pyTruthyStr host.envSwiftExec = false) (hd : host.isDarwin = false)
    (hr : (host.run ["which", "swiftc"]).1 ≠ 0) :
    (get_swiftc_path host args s).1 = Except.error (PyErr.systemExit 1) ∧
    "--- build-script-helper.py: error: unable to find \x27swiftc\x27 tool for bootstrap build"
      ∈ (get_swiftc_path host args s).2.out := by
  cases hv : args.verbose <;>
    simp [get_swiftc_path, tryE, hE, hd, hv, hr, call_output, check_output,
          pyPrint, error, throwE, PyM.bind_apply, PyM.pure_apply, program_name]

/-- Claim C5: for every successfully assembled configuration, `bin_dir`
equals the absolutised build root joined with the resolved target triple
joined with `release` or `debug` according to the release flag. -/
theorem c5_bin_dir (host : Host) (args : Ns) (s : PyState) (a : Ns) (s' : PyState)
    (h : clean_build_args host args s = (Except.ok a, s')) :
    a.bin_dir =
      osJoin (osJoin (host.abspath args.build_dir)
          (if host.isDarwin then "x86_64-apple-macosx"
           else (host.run ["clang", "--print-target-triple"]).2.trim))
        (if args.release then "release" else "debug") := by
  obtain ⟨sp, ha, -⟩ := clean_build_args_ok host args s a s' h
  rw [ha]

theorem c5_bin_dir_witness :
    nsC5res.bin_dir =
      osJoin (osJoin (hostOK.abspath nsC5.build_dir)
          (if hostOK.isDarwin then "x86_64-apple-macosx"
           else (hostOK.run ["clang", "--print-target-triple"]).2.trim))
        (if nsC5.release then "release" else "debug") :=
  c5_bin_dir hostOK nsC5 st0 nsC5res st0 (by rfl)

/-- Claim C6 fails on the code: an explicitly supplied `--swiftc` override
whose basename is the bare interpreter name `swift` is NOT rewritten to
`swiftc`; it is kept verbatim (only absolutised), because the
`swift` → `swiftc` normalisation lives in `get_swiftc_path`, which is
bypassed whenever the override is set. -/
theorem c6_counterexample :
    basename (pyStr nsC6.swiftc_path) = "swift" ∧
    (clean_build_args hostOK nsC6 st0).1 = Except.ok nsC6res ∧
    nsC6res.swiftc_path = some "/usr/bin/swift" ∧
    nsC6res.swiftc_path ≠ some "/usr/bin/swiftc" :=
  ⟨rfl, rfl, rfl, by decide⟩

/-- Claim C6 as amended: (a) an explicitly supplied override is used
first, absolutised but with no suffix rewriting; (b) otherwise, when the
`SWIFT_EXEC` environment hint is set, its real path is used with the
`swift` → `swiftc` basename rewriting; (c) otherwise platform discovery
runs, and if it fails (here: `which swiftc` off Darwin) the program
aborts with the tool-not-found `SystemExit(1)` before any stage can run. -/
theorem c6_amended (hostA hostB hostC : Host) (argsA argsB argsC : Ns)
    (sA sB sC : PyState) (a : Ns) (sA' : PyState)
    (h1 : pyTruthyStr argsA.swiftc_path = true)
    (h1b : (hostA.abspath (pyStr argsA.swiftc_path)).isEmpty = false)
    (h2 : clean_build_args hostA argsA sA = (Except.ok a, sA'))
    (h3 : pyTruthyStr hostB.envSwiftExec = true)
    (h4 : pyTruthyStr hostC.envSwiftExec = false)
    (h5 : hostC.isDarwin = false)
    (h6 : (hostC.run ["which", "swiftc"]).1 ≠ 0) :
    a.swiftc_path = some (hostA.abspath (pyStr argsA.swiftc_path)) ∧
    get_swiftc_path hostB argsB sB =
      (Except.ok (swiftc_env_normalize (hostB.realpath (pyStr hostB.envSwiftExec))), sB) ∧
    (get_swiftc_path hostC argsC sC).1 = Except.error (PyErr.systemExit 1) ∧
    "--- build-script-helper.py: error: unable to find \x27swiftc\x27 tool for bootstrap build"
      ∈ (get_swiftc_path hostC argsC sC).2.out := by
  obtain ⟨sp, ha, hsp⟩ := clean_build_args_ok hostA argsA sA a sA' h2
  obtain ⟨hc1, hc2⟩ := get_swiftc_path_which_fail hostC argsC sC h4 h5 h6
  exact ⟨by rw [ha]; simp [hsp h1 h1b],
         get_swiftc_path_env hostB argsB sB h3, hc1, hc2⟩

theorem c6_amended_witness :
    nsC6res.swiftc_path = some (hostOK.abspath (pyStr nsC6.swiftc_path)) ∧
    get_swiftc_path hostEnvSwift nsC1 st0 =
      (Except.ok (swiftc_env_normalize
        (hostEnvSwift.realpath (pyStr hostEnvSwift.envSwiftExec))), st0) ∧
    (get_swiftc_path hostNoSwiftc nsC1 st0).1 = Except.error (PyErr.systemExit 1) ∧
    "--- build-script-helper.py: error: unable to find \x27swiftc\x27 tool for bootstrap build"
      ∈ (get_swiftc_path hostNoSwiftc nsC1 st0).2.out :=
  c6_amended hostOK hostEnvSwift hostNoSwiftc nsC6 nsC1 nsC1 st0 st0 st0
    nsC6res st0 (by rfl) (by rfl) (by rfl) (by rfl) (by rfl) (by rfl) (by decide)

/-- Claim C7: with `--release`, the Stage 3 flag set is exactly
`--disable-index-store -Xswiftc -enable-testing --configuration release`;
without it, none of the testability or configuration flags appear, and
`--disable-index-store` is present in both cases. -/
theorem c7_release_flag_set (argsR argsD : Ns) (hR : argsR.release = true)
    (hD : argsD.release = false) :
    "--disable-index-store" ∈ get_swiftpm_flags argsR ∧
    "--disable-index-store" ∈ get_swiftpm_flags argsD ∧
    get_swiftpm_flags argsR =
      ["--disable-index-store", "-Xswiftc", "-enable-testing",
       "--configuration", "release"] ∧
    "-Xswiftc" ∉ get_swiftpm_flags argsD ∧
    "-enable-testing" ∉ get_swiftpm_flags argsD ∧
    "--configuration" ∉ get_swiftpm_flags argsD ∧
    "release" ∉ get_swiftpm_flags argsD := by
  simp [get_swiftpm_flags, hR, hD]

theorem c7_release_flag_set_witness :
    "--disable-index-store" ∈ get_swiftpm_flags nsRel ∧
    "--disable-index-store" ∈ get_swiftpm_flags nsDbg ∧
    get_swiftpm_flags nsRel =
      ["--disable-index-store", "-Xswiftc", "-enable-testing",
       "--configuration", "release"] ∧
    "-Xswiftc" ∉ get_swiftpm_flags nsDbg ∧
    "-enable-testing" ∉ get_swiftpm_flags nsDbg ∧
    "--configuration" ∉ get_swiftpm_flags nsDbg ∧
    "release" ∉ get_swiftpm_flags nsDbg :=
  c7_release_flag_set nsRel nsDbg rfl rfl

theorem intercalate_pair (a b : String) :
    String.intercalate ":" [a, b] = a ++ ":" ++ b := rfl

/-- Claim C9: the environment overlay of the self-hosted (Stage 3/4)
child invocation is only prepended to the child command vector — it holds
the compiler path, build root, dependency-library hint and the two loader
variables set to the same colon-joined bootstrap-lib and dependency-lib
pair — and neither `call_swiftpm` nor any configure-and-compile stage
ever mutates the parent process environment. -/
theorem c9_env_overlay_frame (host : Host) (args : Ns)
    (bootstrap_dir llbuild_build_dir : String) (fw : Bool) (cmd : Cmd)
    (ca : List String) (sp bd : String) (s : PyState) :
    (call_swiftpm host args bootstrap_dir llbuild_build_dir fw cmd s).2.env = s.env ∧
    (build_with_cmake host args ca sp bd s).2.env = s.env ∧
    (call_swiftpm host args bootstrap_dir llbuild_build_dir fw cmd s).2.execd =
      s.execd ++
        [get_swiftpm_env_cmd (pyStr args.swiftc_path) args.build_dir bootstrap_dir
            llbuild_build_dir fw ++ cmd ++ get_swiftpm_flags args] ∧
    ("SWIFT_EXEC=" ++ pyStr args.swiftc_path) ∈
      get_swiftpm_env_cmd (pyStr args.swiftc_path) args.build_dir bootstrap_dir
        llbuild_build_dir fw ∧
    ("SWIFTPM_BUILD_DIR=" ++ args.build_dir) ∈
      get_swiftpm_env_cmd (pyStr args.swiftc_path) args.build_dir bootstrap_dir
        llbuild_build_dir fw ∧
    ("SWIFTPM_PD_LIBS=" ++ osJoin bootstrap_dir "pm") ∈
      get_swiftpm_env_cmd (pyStr args.swiftc_path) args.build_dir bootstrap_dir
        llbuild_build_dir fw ∧
    ("DYLD_LIBRARY_PATH=" ++
        (osJoin bootstrap_dir "lib" ++ ":" ++ osJoin llbuild_build_dir "lib")) ∈
      get_swiftpm_env_cmd (pyStr args.swiftc_path) args.build_dir bootstrap_dir
        llbuild_build_dir fw ∧
    ("LD_LIBRARY_PATH=" ++
        (osJoin bootstrap_dir "lib" ++ ":" ++ osJoin llbuild_build_dir "lib")) ∈
      get_swiftpm_env_cmd (pyStr args.swiftc_path) args.build_dir bootstrap_dir
        llbuild_build_dir fw := by
  refine ⟨?_, bwc_env host args ca sp bd s, ?_, ?_, ?_, ?_, ?_, ?_⟩
  · simp only [call_swiftpm]
    exact call_env host args _ _ s
  · simp only [call_swiftpm]
    exact call_execd host args _ _ s
  all_goals cases fw <;> simp [get_swiftpm_env_cmd, intercalate_pair]

/-- Claim C8 fails on the code: two configure-and-compile runs that
differ only in the verbose flag do not execute identical command
vectors — under verbose the compile step is invoked as `ninja -v`
instead of `ninja` (lines 290-293). -/
theorem c8_counterexample :
    nsC8v = { nsC8nv with verbose := true } ∧
    (build_with_cmake hostCache nsC8v [] "/src" "/bld" st0).2.execd =
      [["ninja", "-v"]] ∧
    (build_with_cmake hostCache nsC8nv [] "/src" "/bld" st0).2.execd =
      [["ninja"]] ∧
    (build_with_cmake hostCache nsC8v [] "/src" "/bld" st0).2.execd ≠
      (build_with_cmake hostCache nsC8nv [] "/src" "/bld" st0).2.execd :=
  ⟨rfl, rfl, rfl, by decide⟩

theorem cmakeCmd_verbose (host : Host) (args : Ns) (ca : List String)
    (sp : String) (v : Bool) :
    cmakeCmd host { args with verbose := v } ca sp = cmakeCmd host args ca sp := rfl

theorem addNinjaVerbose_cmake (host : Host) (args : Ns) (ca : List String)
    (sp : String) :
    addNinjaVerbose (cmakeCmd host args ca sp) = cmakeCmd host args ca sp := by
  simp [addNinjaVerbose, cmakeCmd]

theorem addNinjaVerbose_ninja : addNinjaVerbose ["ninja"] = ["ninja", "-v"] := rfl

/-- Claim C8 as amended: verbose changes no control-flow decision and no
command other than the compile step, which gains the single `-v` flag;
the two executed traces agree after applying that rewrite. -/
theorem c8_amended (host : Host) (args : Ns) (ca : List String) (sp bd : String)
    (s : PyState) (hs : s.execd = []) :
    (build_with_cmake host { args with verbose := true } ca sp bd s).2.execd =
      ((build_with_cmake host { args with verbose := false } ca sp bd s).2.execd).map
        addNinjaVerbose := by
  rw [bwc_execd, bwc_execd, hs]
  by_cases hf : host.isfile (osJoin bd "CMakeCache.txt")
  · simp [hf, ninjaCmd, addNinjaVerbose]
  · by_cases hr : (host.run (cmakeCmd host args ca sp)).1 = 0 <;>
      simp [hf, hr, cmakeCmd_verbose, ninjaCmd, addNinjaVerbose_cmake,
            addNinjaVerbose_ninja]

theorem c8_amended_witness :
    (build_with_cmake hostOK { nsC8nv with verbose := true } [] "/src" "/bld" st0).2.execd =
      ((build_with_cmake hostOK { nsC8nv with verbose := false } [] "/src" "/bld" st0).2.execd).map
        addNinjaVerbose :=
  c8_amended hostOK nsC8nv [] "/src" "/bld" st0 rfl

/-- Claim C3 fails on the code, which contradicts its own
`add_test_args`: `main` wires `add_build_args` (line 73) to the `test`
subparser, so `--filter` and `--parallel` are not registered and
`test --filter Foo --filter Bar` exits with argparse status 2 before any
runner is invoked; the test-runner command construction itself
(lines 165-169), fed the intended `add_test_args` values
(parallel on by default, repeatable filter), produces exactly the
claimed vector. -/
theorem c3_test_filter_wiring :
    parse_args_result option_strings_test_wired
        ["--filter", "Foo", "--filter", "Bar"] =
      Except.error (PyErr.systemExit 2) ∧
    "--filter" ∉ option_strings_test_wired ∧
    "--parallel" ∉ option_strings_test_wired ∧
    "--filter" ∈ option_strings_test_intended ∧
    "--parallel" ∈ option_strings_test_intended ∧
    test_runner_cmd "/b/x86_64-apple-macosx/debug" true ["Foo", "Bar"] =
      ["/b/x86_64-apple-macosx/debug/swift-test", "--parallel",
       "--filter", "Foo", "--filter", "Bar"] :=
  ⟨rfl, by decide, by decide, by decide, by decide, rfl⟩

/-- Claim C1 fails on the code: `build` with a fresh build root and a
valid compiler path never reaches Stage 1. After `clean_build_args`
succeeds, line 153 reads `args.llbuild_build_dir`, an attribute no parser
registers, so the run dies with AttributeError — process exit 1, not 0,
and no stage command is ever spawned. -/
theorem c1_build_attribute_error :
    build hostOK nsC1 st0 =
      (Except.error (PyErr.attributeError "llbuild_build_dir"), st0) ∧
    pyExitCode (build hostOK nsC1 st0).1 = 1 ∧
    (build hostOK nsC1 st0).2.execd = [] :=
  ⟨rfl, rfl, rfl⟩

end BSH
